import Mathlib

/-!
Verification of the consensus and contributor-scoring engine of the
solana_pastel_oracle_program repository.

The repository ships its Anchor/TypeScript test harness; the on-chain
program's Rust sources are not part of the checkout, so the core
operations (compute_consensus, should_calculate_consensus,
aggregate_consensus_data, update_contributor, calculate_is_banned,
validate_data_contributor_report, post_consensus_tasks,
request_reward_helper) are modelled here from the design specification,
with the numeric constants that do appear in the test harness
(MIN_NUMBER_OF_ORACLES = 8, MIN_REPORTS_FOR_REWARD = 10,
MIN_COMPLIANCE_SCORE_FOR_REWARD = 65_000000000,
MIN_RELIABILITY_SCORE_FOR_REWARD = 80_000000000) taken from
tests/solana_pastel_oracle_program.ts.
-/

namespace PastelOracle

/-- Modelled from the spec: the closed enumeration of transaction statuses
(Invalid, PendingMining, MinedPendingActivation, MinedActivated); the Rust
enum is absent from the checkout, variant order is the order used by the
test harness when decoding `status_weights`. -/
inductive TxidStatus where
  | Invalid
  | PendingMining
  | MinedPendingActivation
  | MinedActivated
deriving DecidableEq, Repr

/-- Enumeration index of a status variant (its discriminant). -/
def TxidStatus.toIndex : TxidStatus → Nat
  | .Invalid => 0
  | .PendingMining => 1
  | .MinedPendingActivation => 2
  | .MinedActivated => 3

/-- Modelled from the spec: the closed enumeration of Pastel ticket kinds;
the Rust enum is absent from the checkout, variant names are those the
test harness submits. -/
inductive PastelTicketType where
  | Sense
  | Cascade
  | Nft
  | InferenceApi
deriving DecidableEq, Repr

/-- Modelled from the spec: the error conditions surfaced by the oracle
program; the Rust `OracleError` enum is absent from the checkout, the
variants named here are the ones the test harness matches on and the spec
enumerates. -/
inductive OracleError where
  | InvalidTxid
  | InvalidTxidStatus
  | InvalidTicketType
  | InvalidFileHashLength
  | MissingFileHash
  | ContributorNotRegistered
  | ContributorBanned
  | EnoughReportsSubmittedForTxid
  | NotEligibleForReward
  | UnregisteredOracle
deriving DecidableEq, Repr

/-- Fixed-point scale: scores are stored scaled by 1e9. -/
def SCORE_SCALE : Int := 1000000000

/-- Upper clamp of the fixed-point score range ([0, max] in the
fixed-point base; 100.0 scaled by 1e9, consistent with the reward
thresholds 65_000000000 and 80_000000000 in the test harness). -/
def MAX_COMPLIANCE_SCORE : Int := 100000000000

/-- Quorum floor, from tests/solana_pastel_oracle_program.ts. -/
def MIN_NUMBER_OF_ORACLES : Nat := 8

/-- Minimum report count for reward eligibility, from
tests/solana_pastel_oracle_program.ts. -/
def MIN_REPORTS_FOR_REWARD : Nat := 10

/-- Compliance-score floor for reward eligibility, from
tests/solana_pastel_oracle_program.ts. -/
def MIN_COMPLIANCE_SCORE_FOR_REWARD : Int := 65000000000

/-- Reliability-score floor for reward eligibility, from
tests/solana_pastel_oracle_program.ts. -/
def MIN_RELIABILITY_SCORE_FOR_REWARD : Int := 80000000000

/-- Base reward, from tests/solana_pastel_oracle_program.ts. -/
def BASE_REWARD_AMOUNT_IN_LAMPORTS : Int := 100000

/-- Modelled from the spec: maximum accepted txid length (txids in the
test harness are 64 hex characters); the Rust constant is absent from the
checkout. -/
def MAX_TXID_LENGTH : Nat := 64

/-- Modelled from the spec: the unit of the base compliance increment; the
Rust constant is absent from the checkout.  A single accurate increment is
`ACCURATE_INCREMENT_UNIT * streak_bonus * time_weight *
reliability_scaling`, at most 400000000 (0.4 scaled). -/
def ACCURATE_INCREMENT_UNIT : Int := 5000000

/-- Modelled from the spec: the fixed compliance penalty for an inaccurate
report (0.5 scaled), chosen strictly larger in magnitude than any single
accurate increment; the Rust constant is absent from the checkout. -/
def COMPLIANCE_PENALTY : Int := 500000000

/-- Modelled from the spec: linear time-decay rate of the compliance score
per second of inactivity; the Rust constant is absent from the checkout. -/
def DECAY_RATE_PER_SECOND : Int := 1000

/-- Modelled from the spec: inactivity gap (seconds) beyond which the
time-weight factor discounts an accurate contribution; the Rust constant
is absent from the checkout. -/
def TIME_WEIGHT_ACTIVITY_THRESHOLD : Nat := 604800

/-- Modelled from the spec: consensus-failure count at which a temporary
ban is applied; the Rust constant is absent from the checkout. -/
def TEMPORARY_BAN_THRESHOLD : Nat := 5

/-- Modelled from the spec: duration (seconds) of a temporary ban; the
Rust constant is absent from the checkout. -/
def TEMPORARY_BAN_DURATION : Nat := 86400

/-- Modelled from the spec: consensus-failure count at which a permanent
ban is applied; the Rust constant is absent from the checkout. -/
def PERMANENT_BAN_THRESHOLD : Nat := 100

/-- Modelled from the spec: the sentinel value of `ban_expiry` denoting a
permanent ban (u64::MAX in the fixed-width original). -/
def PERMANENT_BAN_SENTINEL : Nat := 18446744073709551615

/-- Modelled from the spec: retention window (seconds) for temporary
reports and aggregated consensus data; the Rust constant is absent from
the checkout. -/
def DATA_RETENTION_PERIOD : Nat := 86400

/-- Modelled from the spec: retention window (seconds) for per-txid
submission counts; the Rust constant is absent from the checkout. -/
def SUBMISSION_COUNT_RETENTION_PERIOD : Nat := 86400

/-- Modelled from the spec: a registered contributor record (§3 of the
spec); the Rust `Contributor` struct is absent from the checkout, field
names follow the test harness's decoded account fields. -/
structure Contributor where
  reward_address : Nat
  compliance_score : Int
  reliability_score : Int
  total_reports_submitted : Nat
  accurate_reports_count : Nat
  current_streak : Nat
  consensus_failures : Nat
  last_active_timestamp : Nat
  ban_expiry : Nat
  is_eligible_for_rewards : Bool
  is_recently_active : Bool
  is_reliable : Bool
deriving DecidableEq, Repr

/-- Modelled from the spec: the per-variant accumulated status weights of
one txid's `AggregatedConsensusData` (a fixed-size array indexed by
`TxidStatus` in the original). -/
structure StatusWeights where
  invalid : Int
  pendingMining : Int
  minedPendingActivation : Int
  minedActivated : Int
deriving DecidableEq, Repr

/-- The all-zero status-weight tally. -/
def StatusWeights.zero : StatusWeights :=
  { invalid := 0, pendingMining := 0, minedPendingActivation := 0, minedActivated := 0 }

/-- Weight accumulated for one status variant. -/
def StatusWeights.get (w : StatusWeights) : TxidStatus → Int
  | .Invalid => w.invalid
  | .PendingMining => w.pendingMining
  | .MinedPendingActivation => w.minedPendingActivation
  | .MinedActivated => w.minedActivated

/-- Add `wt` to the weight of variant `s`. -/
def StatusWeights.add (w : StatusWeights) (s : TxidStatus) (wt : Int) : StatusWeights :=
  match s with
  | .Invalid => { w with invalid := w.invalid + wt }
  | .PendingMining => { w with pendingMining := w.pendingMining + wt }
  | .MinedPendingActivation => { w with minedPendingActivation := w.minedPendingActivation + wt }
  | .MinedActivated => { w with minedActivated := w.minedActivated + wt }

/-- One (hash, accumulated weight) pair of a txid's hash tally. -/
structure HashWeight where
  hash : String
  weight : Int
deriving DecidableEq, Repr

/-- Modelled from the spec: the per-txid weighted tally
(`AggregatedConsensusData`, §3); the Rust struct is absent from the
checkout. -/
structure AggregatedConsensusData where
  txid : String
  status_weights : StatusWeights
  hash_weights : List HashWeight
  last_updated : Nat
deriving DecidableEq, Repr

/-- Modelled from the spec: the deduplicated transaction-identifying
payload shared by all reports for one txid (`CommonReportData`, §3). -/
structure CommonReportData where
  txid : String
  pastel_ticket_type : PastelTicketType
deriving DecidableEq, Repr

/-- Modelled from the spec: one contributor's in-flight vote
(`TempStatusReport`, §3): an index into the common-data list, the
contributor's address, the claimed status, the 6-hex-character hash
value, and the submission timestamp. -/
structure TempStatusReport where
  common_data_ref : Nat
  contributor_reward_address : Nat
  txid_status : TxidStatus
  hash_value : String
  timestamp : Nat
deriving DecidableEq, Repr

/-- Modelled from the spec: per-txid submission counter
(`SubmissionCount`, §3). -/
structure TxidSubmissionCount where
  txid : String
  count : Nat
  last_updated : Nat
deriving DecidableEq, Repr

/-- Modelled from the spec: the process-wide oracle store (contributor
registry, report store, submission tracker, consensus aggregator). -/
structure OracleState where
  contributors : List Contributor
  common_reports : List CommonReportData
  temp_reports : List TempStatusReport
  submission_counts : List TxidSubmissionCount
  consensus_data : List AggregatedConsensusData
deriving DecidableEq, Repr

/-- Modelled from the spec (§4.4): one step of the first-maximum scan over
the hash tally — the running best is replaced only by a strictly heavier
pair, so on ties the first-seen pair wins. -/
def hash_fold_step (best h : HashWeight) : HashWeight :=
  if best.weight < h.weight then h else best

/-- Modelled from the spec (§4.4): the (hash, weight) pair with the
highest accumulated weight, ties broken by first-seen order in the list;
the scan starts from the empty-hash/zero-weight pair. -/
def compute_consensus_hash (hws : List HashWeight) : HashWeight :=
  hws.foldl hash_fold_step { hash := "", weight := 0 }

/-- Modelled from the spec (§4.4): the `TxidStatus` variant with the
strictly highest accumulated weight; on ties the lowest-valued variant
wins because the scan in enumeration order replaces the running best only
on a strictly greater weight.  The scan is written out with the running
leader's weight substituted at each comparison. -/
def compute_consensus_status (w : StatusWeights) : TxidStatus :=
  if w.invalid < w.pendingMining then
    if w.pendingMining < w.minedPendingActivation then
      if w.minedPendingActivation < w.minedActivated then .MinedActivated
      else .MinedPendingActivation
    else
      if w.pendingMining < w.minedActivated then .MinedActivated
      else .PendingMining
  else
    if w.invalid < w.minedPendingActivation then
      if w.minedPendingActivation < w.minedActivated then .MinedActivated
      else .MinedPendingActivation
    else
      if w.invalid < w.minedActivated then .MinedActivated
      else .Invalid

/-- Modelled from the spec (§4.4): `compute_consensus(aggregated_data) ->
(TxidStatus, HashPrefix)`; the Rust function is absent from the
checkout. -/
def compute_consensus (d : AggregatedConsensusData) : TxidStatus × String :=
  (compute_consensus_status d.status_weights, (compute_consensus_hash d.hash_weights).hash)

/-- Modelled from the spec (§4.1): `is_banned(contributor, now)` — true if
`ban_expiry` is the permanent sentinel, or `ban_expiry > now` (temporary
ban still active); the Rust `calculate_is_banned` method is absent from
the checkout. -/
def calculate_is_banned (c : Contributor) (now : Nat) : Bool :=
  c.ban_expiry == PERMANENT_BAN_SENTINEL || decide (now < c.ban_expiry)

/-- Modelled from the spec (§4.5): ban evaluation — once
`consensus_failures` reaches the permanent threshold, `ban_expiry` is set
to the permanent sentinel; once it reaches the (lower) temporary
threshold, `ban_expiry` is set to `now + TEMPORARY_BAN_DURATION`; the Rust
`apply_bans` logic is absent from the checkout. -/
def apply_bans (c : Contributor) (now : Nat) : Contributor :=
  if PERMANENT_BAN_THRESHOLD ≤ c.consensus_failures then
    { c with ban_expiry := PERMANENT_BAN_SENTINEL }
  else if TEMPORARY_BAN_THRESHOLD ≤ c.consensus_failures then
    { c with ban_expiry := now + TEMPORARY_BAN_DURATION }
  else c

/-- Modelled from the spec (§4.5): a streak bonus that grows with the
current streak, capped (in tenths of the neutral factor: 10 .. 20). -/
def streak_bonus (streak : Nat) : Int :=
  ((10 + min streak 10 : Nat) : Int)

/-- Modelled from the spec (§4.5): a time-weight factor (in halves) that
discounts contributions from long-inactive contributors. -/
def time_weight (now last : Nat) : Int :=
  if now - last ≤ TIME_WEIGHT_ACTIVITY_THRESHOLD then 2 else 1

/-- Modelled from the spec (§4.5): a reliability-weighted scaling factor
(in halves) so chronically unreliable contributors regain compliance more
slowly. -/
def reliability_scaling (rel : Int) : Int :=
  if MIN_RELIABILITY_SCORE_FOR_REWARD ≤ rel then 2 else 1

/-- Modelled from the spec (§4.5): the compliance increment applied for
one accurate report — a base increment scaled by the streak bonus, the
time-weight factor and the reliability scaling.  Always strictly positive
and strictly below `COMPLIANCE_PENALTY`. -/
def accurate_increment (streak : Nat) (now last : Nat) (rel : Int) : Int :=
  ACCURATE_INCREMENT_UNIT * streak_bonus streak * time_weight now last * reliability_scaling rel

/-- Modelled from the spec (§4.5): time-based linear decay of the
compliance score, applied before the increment/penalty, floored at 0. -/
def decayed_score (score : Int) (now last : Nat) : Int :=
  max 0 (score - DECAY_RATE_PER_SECOND * ((now - last : Nat) : Int))

/-- Clamp a score into the valid fixed-point range [0, max]. -/
def clamp_score (x : Int) : Int :=
  min MAX_COMPLIANCE_SCORE (max 0 x)

/-- Reliability as the ratio of accurate to total reports, scaled to the
fixed-point base (computed in Nat, total assumed positive). -/
def reliability_of (accurate total : Nat) : Int :=
  ((accurate * 100000000000 / total : Nat) : Int)

/-- The reward-eligibility predicate: enough reports, reliability and
compliance both above their floors (constants from
tests/solana_pastel_oracle_program.ts lines 30-33 and the
`isEligibleForRewards` check at lines 1257-1270). -/
def compute_is_eligible_for_rewards (total : Nat) (rel comp : Int) : Bool :=
  decide (MIN_REPORTS_FOR_REWARD ≤ total) &&
  decide (MIN_RELIABILITY_SCORE_FOR_REWARD ≤ rel) &&
  decide (MIN_COMPLIANCE_SCORE_FOR_REWARD ≤ comp)

/-- Modelled from the spec (§4.5): `update_contributor(contributor, now,
is_accurate)` — always bumps `total_reports_submitted` and
`last_active_timestamp`; on an accurate report bumps
`accurate_reports_count` and `current_streak` and adds the scaled
increment to the decayed compliance score; on an inaccurate report resets
the streak, bumps `consensus_failures` and subtracts the fixed penalty;
recomputes the reliability score and the derived flags, clamps the
compliance score, and finally evaluates bans; the Rust function is absent
from the checkout. -/
def update_contributor (c : Contributor) (now : Nat) (is_accurate : Bool) : Contributor :=
  let decayed := decayed_score c.compliance_score now c.last_active_timestamp
  let total' := c.total_reports_submitted + 1
  let acc' := c.accurate_reports_count + (if is_accurate then 1 else 0)
  let streak' := if is_accurate then c.current_streak + 1 else 0
  let failures' := if is_accurate then c.consensus_failures else c.consensus_failures + 1
  let rel' := reliability_of acc' total'
  let comp' :=
    if is_accurate then
      clamp_score (decayed + accurate_increment streak' now c.last_active_timestamp rel')
    else
      clamp_score (decayed - COMPLIANCE_PENALTY)
  apply_bans
    { c with
      compliance_score := comp'
      reliability_score := rel'
      total_reports_submitted := total'
      accurate_reports_count := acc'
      current_streak := streak'
      consensus_failures := failures'
      last_active_timestamp := now
      is_eligible_for_rewards := compute_is_eligible_for_rewards total' rel' comp'
      is_recently_active := decide (now - c.last_active_timestamp ≤ TIME_WEIGHT_ACTIVITY_THRESHOLD)
      is_reliable := decide (MIN_RELIABILITY_SCORE_FOR_REWARD ≤ rel') }
    now

/-- A sequence of scoring updates, each a (timestamp, is_accurate) pair,
applied in order. -/
def apply_updates (c : Contributor) (us : List (Nat × Bool)) : Contributor :=
  us.foldl (fun a u => update_contributor a u.1 u.2) c

/-- Look up a registered contributor by address. -/
def find_contributor (cs : List Contributor) (addr : Nat) : Option Contributor :=
  cs.find? (fun c => c.reward_address == addr)

/-- A lowercase hexadecimal character. -/
def is_lowercase_hex_char (ch : Char) : Bool :=
  ch.isDigit || ('a' ≤ ch && ch ≤ 'f')

/-- Modelled from the spec (§9): strict closed parse of the ticket-type
string supplied on the call path; the Rust conversion is absent from the
checkout, names follow the test harness's enum. -/
def parse_pastel_ticket_type (s : String) : Option PastelTicketType :=
  if s == "Sense" then some .Sense
  else if s == "Cascade" then some .Cascade
  else if s == "Nft" then some .Nft
  else if s == "InferenceApi" then some .InferenceApi
  else none

/-- Modelled from the spec (§4.2): report validation in the stated order —
empty or over-length txid, unknown ticket-type string, hash value of the
wrong length, hash value with non-lowercase-hex characters, unregistered
contributor, banned contributor; the Rust
`validate_data_contributor_report` is absent from the checkout. -/
def validate_data_contributor_report (st : OracleState) (txid : String)
    (ticket_type_str : String) (hash_str : String) (addr : Nat) (now : Nat) :
    Option OracleError :=
  if txid.length == 0 || decide (MAX_TXID_LENGTH < txid.length) then
    some .InvalidTxid
  else if (parse_pastel_ticket_type ticket_type_str).isNone then
    some .InvalidTicketType
  else if !(hash_str.length == 6) then
    some .InvalidFileHashLength
  else if !(hash_str.toList.all is_lowercase_hex_char) then
    some .MissingFileHash
  else
    match find_contributor st.contributors addr with
    | none => some .ContributorNotRegistered
    | some c => if calculate_is_banned c now then some .ContributorBanned else none

/-- Submission count currently recorded for a txid (0 if absent). -/
def get_submission_count (cs : List TxidSubmissionCount) (txid : String) : Nat :=
  match cs.find? (fun sc => sc.txid == txid) with
  | some sc => sc.count
  | none => 0

/-- Modelled from the spec (§4.3): `should_calculate_consensus(txid)` —
true once the submission count reaches `MIN_NUMBER_OF_ORACLES`; the Rust
function is absent from the checkout. -/
def should_calculate_consensus (cs : List TxidSubmissionCount) (txid : String) : Bool :=
  decide (MIN_NUMBER_OF_ORACLES ≤ get_submission_count cs txid)

/-- Modelled from the spec (§4.2): increment the submission count for a
txid, creating the entry with count 1 on the first report, refreshing the
timestamp otherwise; the Rust `update_submission_count` is absent from the
checkout. -/
def update_submission_count (cs : List TxidSubmissionCount) (txid : String) (now : Nat) :
    List TxidSubmissionCount :=
  match cs with
  | [] => [{ txid := txid, count := 1, last_updated := now }]
  | sc :: rest =>
    if sc.txid == txid then
      { sc with count := sc.count + 1, last_updated := now } :: rest
    else
      sc :: update_submission_count rest txid now

/-- Add weight `wt` to the tally entry of `h`, appending a fresh entry if
the hash has not been seen (case-sensitive linear scan, §4.3). -/
def add_hash_weight (hws : List HashWeight) (h : String) (wt : Int) : List HashWeight :=
  match hws with
  | [] => [{ hash := h, weight := wt }]
  | e :: rest =>
    if e.hash == h then { e with weight := e.weight + wt } :: rest
    else e :: add_hash_weight rest h wt

/-- Modelled from the spec (§4.3): `aggregate(txid, contributor, status,
hash)` — add the vote weight to `status_weights[status]` and to the hash
tally of the txid's `AggregatedConsensusData`, creating the record with
all weights zero on the first vote; the Rust `aggregate_consensus_data` is
absent from the checkout. -/
def aggregate_consensus_data (cds : List AggregatedConsensusData) (txid : String)
    (wt : Int) (s : TxidStatus) (h : String) (now : Nat) :
    List AggregatedConsensusData :=
  match cds with
  | [] =>
    [{ txid := txid
       status_weights := StatusWeights.zero.add s wt
       hash_weights := add_hash_weight [] h wt
       last_updated := now }]
  | d :: rest =>
    if d.txid == txid then
      { d with
        status_weights := d.status_weights.add s wt
        hash_weights := add_hash_weight d.hash_weights h wt
        last_updated := now } :: rest
    else d :: aggregate_consensus_data rest txid wt s h now

/-- Whether a temporary report references the given txid, through its
common-data index. -/
def report_references_txid (commons : List CommonReportData) (r : TempStatusReport)
    (txid : String) : Bool :=
  match commons.get? r.common_data_ref with
  | some cd => cd.txid == txid
  | none => false

/-- Modelled from the spec (§4.6): `post_consensus_tasks(txid)` — evict
every temporary report for this txid and the txid's aggregated consensus
entry, sweep all retained records older than their retention windows, and
remove permanently banned contributors; the Rust function is absent from
the checkout. -/
def post_consensus_tasks (st : OracleState) (txid : String) (now : Nat) : OracleState :=
  { st with
    contributors := st.contributors.filter (fun c => !(c.ban_expiry == PERMANENT_BAN_SENTINEL))
    temp_reports := st.temp_reports.filter (fun r =>
      !(report_references_txid st.common_reports r txid) &&
      (st.common_reports.get? r.common_data_ref).isSome &&
      decide (now - r.timestamp ≤ DATA_RETENTION_PERIOD))
    consensus_data := st.consensus_data.filter (fun d =>
      !(d.txid == txid) && decide (now - d.last_updated ≤ DATA_RETENTION_PERIOD))
    submission_counts := st.submission_counts.filter (fun sc =>
      decide (now - sc.last_updated ≤ SUBMISSION_COUNT_RETENTION_PERIOD)) }

/-- Apply one scoring update to the contributor with the given address,
leaving the registry unchanged when the contributor is missing
(skip-on-missing, §4.4). -/
def update_contributor_in_list (cs : List Contributor) (addr : Nat) (now : Nat)
    (is_accurate : Bool) : List Contributor :=
  match cs with
  | [] => []
  | c :: rest =>
    if c.reward_address == addr then update_contributor c now is_accurate :: rest
    else c :: update_contributor_in_list rest addr now is_accurate

/-- Modelled from the spec (§4.4, step 2): score every temporary report of
the txid against the consensus outcome — a report is accurate when both
its status and its hash value match the consensus pair. -/
def score_reports (st : OracleState) (txid : String) (cst : TxidStatus)
    (chash : String) (now : Nat) : OracleState :=
  { st with
    contributors := st.temp_reports.foldl (fun cs r =>
      if report_references_txid st.common_reports r txid then
        update_contributor_in_list cs r.contributor_reward_address now
          (r.txid_status == cst && r.hash_value == chash)
      else cs) st.contributors }

/-- Modelled from the spec (§4.4): the finalization sequence
`calculate_consensus` — compute the consensus pair, score every report of
the txid, then run cleanup; a no-op when no aggregated data exists; the
Rust function is absent from the checkout. -/
def calculate_consensus (st : OracleState) (txid : String) (now : Nat) : OracleState :=
  match st.consensus_data.find? (fun d => d.txid == txid) with
  | none => st
  | some d =>
    let pair := compute_consensus d
    post_consensus_tasks (score_reports st txid pair.1 pair.2 now) txid now

/-- Index of the common-data entry for (txid, ticket type), appending a
fresh entry when absent (deduplication, §4.2). -/
def find_or_add_common (commons : List CommonReportData) (txid : String)
    (tt : PastelTicketType) : List CommonReportData × Nat :=
  match commons.findIdx? (fun cd => cd.txid == txid && cd.pastel_ticket_type == tt) with
  | some i => (commons, i)
  | none => (commons ++ [{ txid := txid, pastel_ticket_type := tt }], commons.length)

/-- Modelled from the spec (§4.2-§4.4): the accepted-submission path —
store the report, bump the submission count, aggregate the weighted vote,
then (when the quorum gate opens) finalize consensus synchronously within
the same call; the Rust `submit_data_report_helper` is absent from the
checkout. -/
def submit_data_report (st : OracleState) (txid : String) (status : TxidStatus)
    (ticket_type_str : String) (hash_str : String) (addr : Nat) (now : Nat) :
    Except OracleError OracleState :=
  match validate_data_contributor_report st txid ticket_type_str hash_str addr now with
  | some e => .error e
  | none =>
    if MIN_NUMBER_OF_ORACLES ≤ get_submission_count st.submission_counts txid then
      .error .EnoughReportsSubmittedForTxid
    else
      match find_contributor st.contributors addr,
            parse_pastel_ticket_type ticket_type_str with
      | some c, some tt =>
        let fc := find_or_add_common st.common_reports txid tt
        let st1 : OracleState :=
          { st with
            common_reports := fc.1
            temp_reports := st.temp_reports ++
              [{ common_data_ref := fc.2, contributor_reward_address := addr,
                 txid_status := status, hash_value := hash_str, timestamp := now }]
            submission_counts := update_submission_count st.submission_counts txid now
            consensus_data := aggregate_consensus_data st.consensus_data txid
              c.compliance_score status hash_str now }
        if should_calculate_consensus st1.submission_counts txid then
          .ok (calculate_consensus st1 txid now)
        else
          .ok st1
      | _, _ => .error .ContributorNotRegistered

/-- Modelled from the spec (§6, and the reward narrative of the README):
`request_reward(address)` — unknown contributors are rejected with
`UnregisteredOracle`, contributors failing the eligibility criteria with
`NotEligibleForReward`, otherwise the base reward is paid; the Rust
`request_reward_helper` is absent from the checkout. -/
def request_reward_helper (st : OracleState) (addr : Nat) : Except OracleError Int :=
  match find_contributor st.contributors addr with
  | none => .error .UnregisteredOracle
  | some c =>
    if compute_is_eligible_for_rewards c.total_reports_submitted
        c.reliability_score c.compliance_score then
      .ok BASE_REWARD_AMOUNT_IN_LAMPORTS
    else
      .error .NotEligibleForReward

/-- Sum of the four per-variant accumulated weights. -/
def StatusWeights.total (w : StatusWeights) : Int :=
  w.invalid + w.pendingMining + w.minedPendingActivation + w.minedActivated

/-- Sum of the status weights recorded for a txid (0 if absent). -/
def txid_status_weight_sum (cds : List AggregatedConsensusData) (txid : String) : Int :=
  match cds.find? (fun d => d.txid == txid) with
  | some d => d.status_weights.total
  | none => 0

/-- One weighted vote, with the weight captured at the time it is cast. -/
structure Vote where
  txid : String
  weight : Int
  status : TxidStatus
  hash_value : String
  time : Nat
deriving DecidableEq, Repr

/-- Apply a sequence of votes through the aggregator. -/
def apply_votes (cds : List AggregatedConsensusData) (vs : List Vote) :
    List AggregatedConsensusData :=
  vs.foldl (fun a v => aggregate_consensus_data a v.txid v.weight v.status v.hash_value v.time) cds

/-- Total weight of the votes of a sequence that target a given txid. -/
def votes_weight_sum (vs : List Vote) (txid : String) : Int :=
  match vs with
  | [] => 0
  | v :: rest => (if v.txid = txid then v.weight else 0) + votes_weight_sum rest txid

/-- A freshly registered contributor (default scores, §4.1), at a given
address. -/
def mkContributor (addr : Nat) : Contributor :=
  { reward_address := addr
    compliance_score := SCORE_SCALE
    reliability_score := SCORE_SCALE
    total_reports_submitted := 0
    accurate_reports_count := 0
    current_streak := 0
    consensus_failures := 0
    last_active_timestamp := 0
    ban_expiry := 0
    is_eligible_for_rewards := false
    is_recently_active := false
    is_reliable := false }

/-- A concrete store one report short of quorum for txid "aa", used by the
witnesses. -/
def quorumEdgeState : OracleState :=
  { contributors := [mkContributor 1]
    common_reports := []
    temp_reports := []
    submission_counts := [{ txid := "aa", count := 7, last_updated := 0 }]
    consensus_data := [] }

/-- A permanently banned contributor at address 2, used by the validation
witnesses. -/
def bannedContributor : Contributor :=
  { mkContributor 2 with consensus_failures := 100, ban_expiry := PERMANENT_BAN_SENTINEL }

/-- A concrete store holding one registered and one banned contributor,
used by the validation witnesses. -/
def validationState : OracleState :=
  { contributors := [mkContributor 1, bannedContributor]
    common_reports := []
    temp_reports := []
    submission_counts := []
    consensus_data := [] }

/-- The state of a successful submission, or a fallback on error. -/
def submit_result_or (e : Except OracleError OracleState) (d : OracleState) : OracleState :=
  match e with
  | .ok s => s
  | .error _ => d

/-- The concrete store after the quorum-triggering eighth report for txid
"aa" lands on `quorumEdgeState`. -/
def quorumDoneState : OracleState :=
  submit_result_or
    (submit_data_report quorumEdgeState "aa" TxidStatus.MinedActivated "Nft" "abc123" 1 10)
    quorumEdgeState

/-- Three concrete votes used by the aggregation witness. -/
def sampleVotes : List Vote :=
  [{ txid := "aa", weight := 5, status := TxidStatus.MinedActivated,
     hash_value := "abc123", time := 0 },
   { txid := "bb", weight := 3, status := TxidStatus.Invalid,
     hash_value := "zzzzzz", time := 0 },
   { txid := "aa", weight := 2, status := TxidStatus.Invalid,
     hash_value := "zzzzzz", time := 1 }]

/-- A concrete aggregated tally used by the consensus witnesses. -/
def sampleAgg : AggregatedConsensusData :=
  { txid := "t"
    status_weights :=
      { invalid := 2, pendingMining := 5, minedPendingActivation := 5, minedActivated := 1 }
    hash_weights := [{ hash := "abc123", weight := 3 }, { hash := "ffffff", weight := 5 }]
    last_updated := 0 }

/-- The txid length check of §4.2 as a predicate: nonempty and at most
`MAX_TXID_LENGTH` characters. -/
def txid_ok (txid : String) : Bool :=
  decide (0 < txid.length) && decide (txid.length ≤ MAX_TXID_LENGTH)

/-- The hash check of §4.2 as a predicate: exactly 6 characters, all
lowercase hex. -/
def hash_ok (hs : String) : Bool :=
  hs.length == 6 && hs.toList.all is_lowercase_hex_char

/-- The valid clamped range of the two scores: `[0, max]` in the
fixed-point base. -/
def score_in_range (c : Contributor) : Prop :=
  0 ≤ c.compliance_score ∧ c.compliance_score ≤ MAX_COMPLIANCE_SCORE ∧
  0 ≤ c.reliability_score ∧ c.reliability_score ≤ MAX_COMPLIANCE_SCORE

example :
    compute_consensus_status
      { invalid := 3, pendingMining := 3, minedPendingActivation := 1, minedActivated := 2 }
      = TxidStatus.Invalid := by decide

example :
    compute_consensus_status
      { invalid := 1, pendingMining := 3, minedPendingActivation := 3, minedActivated := 7 }
      = TxidStatus.MinedActivated := by decide

example :
    compute_consensus_hash [⟨"abc123", 5⟩, ⟨"zzzzzz", 7⟩, ⟨"ffffff", 7⟩]
      = ⟨"zzzzzz", 7⟩ := by decide

lemma hash_fold_le (l : List HashWeight) (b : HashWeight) :
    b.weight ≤ (l.foldl hash_fold_step b).weight := by
  induction l generalizing b with
  | nil => exact le_refl _
  | cons h t ih =>
    simp only [List.foldl_cons]
    refine le_trans ?_ (ih (hash_fold_step b h))
    by_cases hc : b.weight < h.weight <;> simp [hash_fold_step, hc]
    omega

lemma hash_fold_ge_mem (l : List HashWeight) (b : HashWeight) :
    ∀ h ∈ l, h.weight ≤ (l.foldl hash_fold_step b).weight := by
  induction l generalizing b with
  | nil => intro h hm; cases hm
  | cons x t ih =>
    intro h hm
    simp only [List.foldl_cons]
    rcases List.mem_cons.mp hm with rfl | hm
    · refine le_trans ?_ (hash_fold_le t (hash_fold_step b h))
      by_cases hc : b.weight < h.weight <;> simp [hash_fold_step, hc]
      omega
    · exact ih (hash_fold_step b x) h hm

lemma hash_fold_first_seen (l : List HashWeight) (b : HashWeight) :
    l.foldl hash_fold_step b = b ∨
    ∃ l1 h l2, l = l1 ++ h :: l2 ∧ l.foldl hash_fold_step b = h ∧
      b.weight < h.weight ∧ ∀ h' ∈ l1, h'.weight < h.weight := by
  induction l generalizing b with
  | nil => exact Or.inl rfl
  | cons x t ih =>
    simp only [List.foldl_cons]
    by_cases hc : b.weight < x.weight
    · have hstep : hash_fold_step b x = x := by simp [hash_fold_step, hc]
      rw [hstep]
      rcases ih x with heq | ⟨l1, g, l2, hdec, hres, hlt, hall⟩
      · exact Or.inr ⟨[], x, t, rfl, heq, hc, by intro h' hm; cases hm⟩
      · refine Or.inr ⟨x :: l1, g, l2, by rw [hdec, List.cons_append], hres, lt_trans hc hlt, ?_⟩
        intro h' hm
        rcases List.mem_cons.mp hm with rfl | hm
        · exact hlt
        · exact hall h' hm
    · have hstep : hash_fold_step b x = b := by simp [hash_fold_step, hc]
      rw [hstep]
      rcases ih b with heq | ⟨l1, g, l2, hdec, hres, hlt, hall⟩
      · exact Or.inl heq
      · refine Or.inr ⟨x :: l1, g, l2, by rw [hdec, List.cons_append], hres, hlt, ?_⟩
        intro h' hm
        rcases List.mem_cons.mp hm with rfl | hm
        · omega
        · exact hall h' hm

lemma compute_consensus_status_max (w : StatusWeights) (s : TxidStatus) :
    w.get s ≤ w.get (compute_consensus_status w) := by
  unfold compute_consensus_status
  split_ifs <;> cases s <;> simp only [StatusWeights.get] <;> omega

lemma compute_consensus_status_tie (w : StatusWeights) (s : TxidStatus)
    (hs : s.toIndex < (compute_consensus_status w).toIndex) :
    w.get s < w.get (compute_consensus_status w) := by
  revert hs
  unfold compute_consensus_status
  split_ifs <;> cases s <;>
    simp only [StatusWeights.get, TxidStatus.toIndex] <;> omega

/-- C1: for every aggregated tally, `compute_consensus` returns the status
variant of maximal accumulated weight (every lower-valued variant that is
not strictly lighter would have won instead, so ties go to the
lowest-valued variant), together with the hash pair of maximal weight
whose tie-break is first-seen order (every pair listed before the winner
is strictly lighter), and it is deterministic: equal inputs give equal
results. -/
theorem compute_consensus_correct (d : AggregatedConsensusData) :
    (∀ s, d.status_weights.get s ≤ d.status_weights.get (compute_consensus d).1) ∧
    (∀ s, s.toIndex < (compute_consensus d).1.toIndex →
      d.status_weights.get s < d.status_weights.get (compute_consensus d).1) ∧
    (∀ h ∈ d.hash_weights, h.weight ≤ (compute_consensus_hash d.hash_weights).weight) ∧
    ((compute_consensus d).2 = (compute_consensus_hash d.hash_weights).hash) ∧
    (compute_consensus_hash d.hash_weights = { hash := "", weight := 0 } ∨
      ∃ l1 h l2, d.hash_weights = l1 ++ h :: l2 ∧
        compute_consensus_hash d.hash_weights = h ∧ 0 < h.weight ∧
        ∀ h' ∈ l1, h'.weight < h.weight) ∧
    (∀ d', d = d' → compute_consensus d = compute_consensus d') := by
  refine ⟨fun s => compute_consensus_status_max d.status_weights s,
    fun s hs => compute_consensus_status_tie d.status_weights s hs,
    fun h hm => hash_fold_ge_mem d.hash_weights _ h hm, rfl, ?_, fun d' he => by rw [he]⟩
  rcases hash_fold_first_seen d.hash_weights { hash := "", weight := 0 } with heq |
    ⟨l1, h, l2, hdec, hres, hlt, hall⟩
  · exact Or.inl heq
  · exact Or.inr ⟨l1, h, l2, hdec, hres, hlt, hall⟩

/-- Witness for C1 at a concrete tally: the tie between `PendingMining`
and `MinedPendingActivation` resolves to the lower variant, which strictly
beats `Invalid`, and the listed pair of weight 3 is bounded by the winning
hash weight. -/
theorem compute_consensus_correct_witness :
    sampleAgg.status_weights.get TxidStatus.Invalid <
      sampleAgg.status_weights.get (compute_consensus sampleAgg).1 ∧
    ({ hash := "abc123", weight := 3 } : HashWeight).weight ≤
      (compute_consensus_hash sampleAgg.hash_weights).weight :=
  ⟨(compute_consensus_correct sampleAgg).2.1 TxidStatus.Invalid (by decide),
   (compute_consensus_correct sampleAgg).2.2.1 { hash := "abc123", weight := 3 } (by decide)⟩

lemma get_update_submission_count (cs : List TxidSubmissionCount) (txid : String) (now : Nat) :
    get_submission_count (update_submission_count cs txid now) txid =
      get_submission_count cs txid + 1 := by
  induction cs with
  | nil => simp [update_submission_count, get_submission_count, List.find?]
  | cons sc rest ih =>
    by_cases h : sc.txid == txid
    · simp [update_submission_count, get_submission_count, List.find?, h]
    · simp only [update_submission_count, h, if_false, Bool.false_eq_true]
      simpa [get_submission_count, List.find?, h] using ih

lemma post_consensus_data_find_none (st : OracleState) (txid : String) (now : Nat) :
    (post_consensus_tasks st txid now).consensus_data.find? (fun d => d.txid == txid) = none := by
  refine List.find?_eq_none.mpr ?_
  intro d hd
  have hm := List.mem_filter.mp hd
  have h2 := hm.2
  simp only [Bool.and_eq_true, Bool.not_eq_eq_eq_not, Bool.not_true] at h2
  simp [h2.1]

lemma calculate_consensus_find_none (st : OracleState) (txid : String) (now : Nat) :
    (calculate_consensus st txid now).consensus_data.find? (fun d => d.txid == txid) = none := by
  unfold calculate_consensus
  cases hf : st.consensus_data.find? (fun d => d.txid == txid) with
  | none => simpa using hf
  | some d => simpa using post_consensus_data_find_none (score_reports st txid
      (compute_consensus d).1 (compute_consensus d).2 now) txid now

/-- C2: the quorum gate is exactly the `MIN_NUMBER_OF_ORACLES` floor —
false strictly below it, true at and above it for every count — and it is
checked synchronously inside the submission call: whenever an accepted
submission leaves the count at or above the floor, the same call has
already finalized consensus (witnessed by the aggregated entry for the
txid being gone from the returned store). -/
theorem should_calculate_consensus_correct :
    (∀ (cs : List TxidSubmissionCount) (txid : String),
      get_submission_count cs txid < MIN_NUMBER_OF_ORACLES →
      should_calculate_consensus cs txid = false) ∧
    (∀ (cs : List TxidSubmissionCount) (txid : String),
      MIN_NUMBER_OF_ORACLES ≤ get_submission_count cs txid →
      should_calculate_consensus cs txid = true) ∧
    (∀ (st : OracleState) (txid : String) (status : TxidStatus) (tts hs : String)
      (addr now : Nat) (st' : OracleState),
      submit_data_report st txid status tts hs addr now = .ok st' →
      MIN_NUMBER_OF_ORACLES ≤ get_submission_count st'.submission_counts txid →
      st'.consensus_data.find? (fun d => d.txid == txid) = none) := by
  refine ⟨fun cs txid h => by simp [should_calculate_consensus]; omega,
    fun cs txid h => by simp [should_calculate_consensus]; omega, ?_⟩
  intro st txid status tts hs addr now st' hok hcount
  unfold submit_data_report at hok
  split at hok
  · exact absurd hok (by simp)
  · split at hok
    · exact absurd hok (by simp)
    · split at hok
      · rename_i c tt hfind hparse
        dsimp only at hok
        split at hok
        · rename_i hshould
          injection hok with hok
          subst hok
          exact calculate_consensus_find_none _ txid now
        · rename_i hshould
          have hst' := hok
          injection hst' with hst'
          exfalso
          rw [← hst'] at hcount
          simp only [should_calculate_consensus, decide_eq_true_eq] at hshould
          exact hshould (by simpa using hcount)
      · exact absurd hok (by simp)

/-- Witness for C2: the gate is closed at count 7 and open at count 8, and
the concrete quorum-triggering eighth report for txid "aa" finalizes and
cleans the aggregated entry within the same submission call. -/
theorem should_calculate_consensus_correct_witness :
    should_calculate_consensus quorumEdgeState.submission_counts "aa" = false ∧
    should_calculate_consensus quorumDoneState.submission_counts "aa" = true ∧
    quorumDoneState.consensus_data.find? (fun d => d.txid == "aa") = none :=
  ⟨should_calculate_consensus_correct.1 quorumEdgeState.submission_counts "aa" (by decide),
   should_calculate_consensus_correct.2.1 quorumDoneState.submission_counts "aa" (by decide),
   should_calculate_consensus_correct.2.2 quorumEdgeState "aa" TxidStatus.MinedActivated
     "Nft" "abc123" 1 10 quorumDoneState rfl (by decide)⟩

/-- C6: once the submission count of a txid sits at or above the
oracle-count ceiling (`MIN_NUMBER_OF_ORACLES`), a further submission that
passes the preceding validation checks is rejected with
`EnoughReportsSubmittedForTxid`; the rejection returns only the error, so
no state is mutated.  Because finalization retains the fresh submission
count, this applies in particular to any report arriving after a txid's
consensus was finalized at `MIN_NUMBER_OF_ORACLES` reports. -/
theorem enough_reports_rejected (st : OracleState) (txid : String) (status : TxidStatus)
    (tts hs : String) (addr now : Nat)
    (hv : validate_data_contributor_report st txid tts hs addr now = none)
    (hc : MIN_NUMBER_OF_ORACLES ≤ get_submission_count st.submission_counts txid) :
    submit_data_report st txid status tts hs addr now =
      .error .EnoughReportsSubmittedForTxid := by
  unfold submit_data_report
  rw [hv]
  simp only [if_pos hc]

/-- Witness for C6: after the eighth report finalized consensus for txid
"aa", the retained count is still 8, and a ninth, otherwise valid report
is rejected with `EnoughReportsSubmittedForTxid`. -/
theorem enough_reports_rejected_witness :
    submit_data_report quorumDoneState "aa" TxidStatus.MinedActivated "Nft" "abc123" 1 20 =
      .error .EnoughReportsSubmittedForTxid :=
  enough_reports_rejected quorumDoneState "aa" TxidStatus.MinedActivated "Nft" "abc123" 1 20
    (by decide) (by decide)

/-- C7: the submission checks run in the stated order, each failure mapped
to its distinct error — a malformed txid to `InvalidTxid`; with the txid
accepted, an unknown ticket-type string to `InvalidTicketType`; next a bad
hash value to `InvalidFileHashLength` (wrong length) or `MissingFileHash`
(non-lowercase-hex); next an unregistered contributor to
`ContributorNotRegistered`; last a banned contributor to
`ContributorBanned` — and any validation failure makes the submission call
return that error before any state mutation. -/
theorem validate_report_order (st : OracleState) (txid : String) (status : TxidStatus)
    (tts hs : String) (addr now : Nat) :
    (txid_ok txid = false →
      validate_data_contributor_report st txid tts hs addr now = some .InvalidTxid) ∧
    (txid_ok txid = true → parse_pastel_ticket_type tts = none →
      validate_data_contributor_report st txid tts hs addr now = some .InvalidTicketType) ∧
    (txid_ok txid = true → (parse_pastel_ticket_type tts).isSome = true →
      hash_ok hs = false →
      validate_data_contributor_report st txid tts hs addr now = some .InvalidFileHashLength ∨
      validate_data_contributor_report st txid tts hs addr now = some .MissingFileHash) ∧
    (txid_ok txid = true → (parse_pastel_ticket_type tts).isSome = true →
      hash_ok hs = true → find_contributor st.contributors addr = none →
      validate_data_contributor_report st txid tts hs addr now =
        some .ContributorNotRegistered) ∧
    (∀ c, txid_ok txid = true → (parse_pastel_ticket_type tts).isSome = true →
      hash_ok hs = true → find_contributor st.contributors addr = some c →
      calculate_is_banned c now = true →
      validate_data_contributor_report st txid tts hs addr now = some .ContributorBanned) ∧
    (∀ e, validate_data_contributor_report st txid tts hs addr now = some e →
      submit_data_report st txid status tts hs addr now = .error e) := by
  have hlen : (txid.length == 0 || decide (MAX_TXID_LENGTH < txid.length)) = !(txid_ok txid) := by
    by_cases h0 : txid.length = 0
    · simp [txid_ok, h0]
    · by_cases h1 : MAX_TXID_LENGTH < txid.length
      · simp [txid_ok, h0, h1, Nat.not_le.mpr h1]
      · simp [txid_ok, h0, h1, Nat.pos_of_ne_zero h0, Nat.le_of_not_lt h1]
  refine ⟨?_, ?_, ?_, ?_, ?_, ?_⟩
  · intro h
    unfold validate_data_contributor_report
    rw [hlen, h]
    rfl
  · intro h hp
    unfold validate_data_contributor_report
    rw [hlen, h, hp]
    rfl
  · intro h hp hh
    unfold validate_data_contributor_report
    rw [hlen, h]
    have hp' : (parse_pastel_ticket_type tts).isNone = false := by
      cases hq : parse_pastel_ticket_type tts with
      | none => rw [hq] at hp; simp at hp
      | some t => rfl
    rw [hp']
    unfold hash_ok at hh
    by_cases h6 : hs.length = 6
    · right
      have h6' : (hs.length == 6) = true := beq_iff_eq.mpr h6
      rw [h6'] at hh
      have hhex : hs.toList.all is_lowercase_hex_char = false := by simpa using hh
      rw [h6', hhex]
      rfl
    · left
      have h6' : (hs.length == 6) = false := by simpa using h6
      rw [h6']
      rfl
  · intro h hp hh hf
    unfold validate_data_contributor_report
    rw [hlen, h]
    have hp' : (parse_pastel_ticket_type tts).isNone = false := by
      cases hq : parse_pastel_ticket_type tts with
      | none => rw [hq] at hp; simp at hp
      | some t => rfl
    rw [hp']
    unfold hash_ok at hh
    rcases Bool.and_eq_true_iff.mp hh with ⟨h6', hhex'⟩
    rw [h6', hhex', hf]
    rfl
  · intro c h hp hh hf hb
    unfold validate_data_contributor_report
    rw [hlen, h]
    have hp' : (parse_pastel_ticket_type tts).isNone = false := by
      cases hq : parse_pastel_ticket_type tts with
      | none => rw [hq] at hp; simp at hp
      | some t => rfl
    rw [hp']
    unfold hash_ok at hh
    rcases Bool.and_eq_true_iff.mp hh with ⟨h6', hhex'⟩
    rw [h6', hhex', hf]
    simp [hb]
  · intro e he
    unfold submit_data_report
    rw [he]

/-- Witness for C7: concrete failures of each validation stage, in order,
on a store holding one registered and one permanently banned
contributor. -/
theorem validate_report_order_witness :
    validate_data_contributor_report validationState "" "Nft" "abc123" 1 50 =
      some .InvalidTxid ∧
    validate_data_contributor_report validationState "aa" "Nift" "abc123" 1 50 =
      some .InvalidTicketType ∧
    (validate_data_contributor_report validationState "aa" "Nft" "abc1234" 1 50 =
      some .InvalidFileHashLength ∨
     validate_data_contributor_report validationState "aa" "Nft" "abc1234" 1 50 =
      some .MissingFileHash) ∧
    validate_data_contributor_report validationState "aa" "Nft" "abc123" 3 50 =
      some .ContributorNotRegistered ∧
    validate_data_contributor_report validationState "aa" "Nft" "abc123" 2 50 =
      some .ContributorBanned ∧
    submit_data_report validationState "" TxidStatus.MinedActivated "Nft" "abc123" 1 50 =
      .error .InvalidTxid :=
  ⟨(validate_report_order validationState "" TxidStatus.MinedActivated "Nft" "abc123" 1 50).1
      (by decide),
   (validate_report_order validationState "aa" TxidStatus.MinedActivated "Nift" "abc123" 1 50).2.1
      (by decide) (by decide),
   (validate_report_order validationState "aa" TxidStatus.MinedActivated "Nft" "abc1234" 1 50).2.2.1
      (by decide) (by decide) (by decide),
   (validate_report_order validationState "aa" TxidStatus.MinedActivated "Nft" "abc123" 3 50).2.2.2.1
      (by decide) (by decide) (by decide) (by decide),
   (validate_report_order validationState "aa" TxidStatus.MinedActivated "Nft" "abc123" 2 50).2.2.2.2.1
      (bannedContributor) (by decide) (by decide) (by decide) (by decide) (by decide),
   (validate_report_order validationState "" TxidStatus.MinedActivated "Nft" "abc123" 1 50).2.2.2.2.2
      .InvalidTxid (by decide)⟩

@[simp] lemma apply_bans_compliance_score (c : Contributor) (now : Nat) :
    (apply_bans c now).compliance_score = c.compliance_score := by
  unfold apply_bans; split_ifs <;> rfl

@[simp] lemma apply_bans_reliability_score (c : Contributor) (now : Nat) :
    (apply_bans c now).reliability_score = c.reliability_score := by
  unfold apply_bans; split_ifs <;> rfl

@[simp] lemma apply_bans_total_reports (c : Contributor) (now : Nat) :
    (apply_bans c now).total_reports_submitted = c.total_reports_submitted := by
  unfold apply_bans; split_ifs <;> rfl

@[simp] lemma apply_bans_accurate_reports (c : Contributor) (now : Nat) :
    (apply_bans c now).accurate_reports_count = c.accurate_reports_count := by
  unfold apply_bans; split_ifs <;> rfl

@[simp] lemma apply_bans_current_streak (c : Contributor) (now : Nat) :
    (apply_bans c now).current_streak = c.current_streak := by
  unfold apply_bans; split_ifs <;> rfl

@[simp] lemma apply_bans_consensus_failures (c : Contributor) (now : Nat) :
    (apply_bans c now).consensus_failures = c.consensus_failures := by
  unfold apply_bans; split_ifs <;> rfl

@[simp] lemma apply_bans_last_active (c : Contributor) (now : Nat) :
    (apply_bans c now).last_active_timestamp = c.last_active_timestamp := by
  unfold apply_bans; split_ifs <;> rfl

@[simp] lemma apply_bans_is_eligible (c : Contributor) (now : Nat) :
    (apply_bans c now).is_eligible_for_rewards = c.is_eligible_for_rewards := by
  unfold apply_bans; split_ifs <;> rfl

/-- C5: when `consensus_failures` has crossed the temporary-ban threshold
(but not the permanent one), `apply_bans` stamps `ban_expiry = now +
TEMPORARY_BAN_DURATION`, and `calculate_is_banned` then holds at every
instant `t` with `t < ban_expiry`; when the stricter permanent threshold
is crossed, `ban_expiry` becomes the permanent sentinel and
`calculate_is_banned` holds at every future instant. -/
theorem apply_bans_correct (c : Contributor) (now : Nat) :
    (TEMPORARY_BAN_THRESHOLD ≤ c.consensus_failures →
      c.consensus_failures < PERMANENT_BAN_THRESHOLD →
      (apply_bans c now).ban_expiry = now + TEMPORARY_BAN_DURATION ∧
      ∀ t, t < (apply_bans c now).ban_expiry →
        calculate_is_banned (apply_bans c now) t = true) ∧
    (PERMANENT_BAN_THRESHOLD ≤ c.consensus_failures →
      (apply_bans c now).ban_expiry = PERMANENT_BAN_SENTINEL ∧
      ∀ t, calculate_is_banned (apply_bans c now) t = true) := by
  constructor
  · intro htemp hperm
    have hnp : ¬ PERMANENT_BAN_THRESHOLD ≤ c.consensus_failures := by omega
    have hexp : (apply_bans c now).ban_expiry = now + TEMPORARY_BAN_DURATION := by
      unfold apply_bans
      rw [if_neg hnp, if_pos htemp]
    refine ⟨hexp, fun t ht => ?_⟩
    simp only [calculate_is_banned, Bool.or_eq_true, decide_eq_true_eq]
    exact Or.inr ht
  · intro hperm
    have hexp : (apply_bans c now).ban_expiry = PERMANENT_BAN_SENTINEL := by
      unfold apply_bans
      rw [if_pos hperm]
    refine ⟨hexp, fun t => ?_⟩
    simp only [calculate_is_banned, Bool.or_eq_true, beq_iff_eq]
    exact Or.inl hexp

/-- Witness for C5: a contributor with 5 failures is banned until the
stamped expiry; one with 100 failures carries the permanent sentinel and
is banned even in the distant future. -/
theorem apply_bans_correct_witness :
    (apply_bans { mkContributor 1 with consensus_failures := 5 } 1000).ban_expiry =
      1000 + TEMPORARY_BAN_DURATION ∧
    calculate_is_banned (apply_bans { mkContributor 1 with consensus_failures := 5 } 1000)
      87399 = true ∧
    calculate_is_banned (apply_bans { mkContributor 1 with consensus_failures := 100 } 1000)
      123456789123456789 = true :=
  ⟨((apply_bans_correct { mkContributor 1 with consensus_failures := 5 } 1000).1
      (by decide) (by decide)).1,
   ((apply_bans_correct { mkContributor 1 with consensus_failures := 5 } 1000).1
      (by decide) (by decide)).2 87399 (by decide),
   ((apply_bans_correct { mkContributor 1 with consensus_failures := 100 } 1000).2
      (by decide)).2 123456789123456789⟩

lemma accurate_increment_bounds (s n l : Nat) (r : Int) :
    0 < accurate_increment s n l r ∧ accurate_increment s n l r ≤ 400000000 ∧
    accurate_increment s n l r < COMPLIANCE_PENALTY := by
  unfold accurate_increment streak_bonus time_weight reliability_scaling
    ACCURATE_INCREMENT_UNIT COMPLIANCE_PENALTY
  split_ifs <;> refine ⟨?_, ?_, ?_⟩ <;> push_cast <;> omega

lemma update_contributor_compliance (c : Contributor) (now : Nat) (b : Bool) :
    (update_contributor c now b).compliance_score =
      if b then
        clamp_score (decayed_score c.compliance_score now c.last_active_timestamp +
          accurate_increment (c.current_streak + 1) now c.last_active_timestamp
            (reliability_of (c.accurate_reports_count + 1) (c.total_reports_submitted + 1)))
      else
        clamp_score (decayed_score c.compliance_score now c.last_active_timestamp -
          COMPLIANCE_PENALTY) := by
  cases b <;> simp [update_contributor]

lemma decayed_score_same_time (c : Contributor) (now : Nat)
    (hnow : now = c.last_active_timestamp) (h0 : 0 ≤ c.compliance_score) :
    decayed_score c.compliance_score now c.last_active_timestamp = c.compliance_score := by
  unfold decayed_score
  have hgap : now - c.last_active_timestamp = 0 := by omega
  rw [hgap]
  simp
  omega

lemma clamp_score_of_between (x : Int) (h0 : 0 ≤ x) (h1 : x ≤ MAX_COMPLIANCE_SCORE) :
    clamp_score x = x := by
  unfold clamp_score
  rw [max_eq_right h0, min_eq_right h1]

/-- C4: `update_contributor` always bumps `total_reports_submitted` by one
and stamps `last_active_timestamp = now`; on an accurate report it bumps
`accurate_reports_count` and `current_streak` by one and (for an active,
in-range score) strictly increases the compliance score; on an inaccurate
report it resets `current_streak` to 0, bumps `consensus_failures` by one
and decreases the compliance score by exactly the fixed
`COMPLIANCE_PENALTY`, which is strictly larger in magnitude than every
possible single accurate increment. -/
theorem update_contributor_correct (c : Contributor) (now : Nat) (b : Bool) :
    ((update_contributor c now b).total_reports_submitted =
        c.total_reports_submitted + 1 ∧
     (update_contributor c now b).last_active_timestamp = now) ∧
    (b = true →
      (update_contributor c now b).accurate_reports_count =
        c.accurate_reports_count + 1 ∧
      (update_contributor c now b).current_streak = c.current_streak + 1) ∧
    (b = true → now = c.last_active_timestamp → 0 ≤ c.compliance_score →
      c.compliance_score + 400000000 ≤ MAX_COMPLIANCE_SCORE →
      c.compliance_score < (update_contributor c now b).compliance_score) ∧
    (b = false →
      (update_contributor c now b).current_streak = 0 ∧
      (update_contributor c now b).consensus_failures = c.consensus_failures + 1) ∧
    (b = false → now = c.last_active_timestamp →
      COMPLIANCE_PENALTY ≤ c.compliance_score →
      c.compliance_score ≤ MAX_COMPLIANCE_SCORE →
      (update_contributor c now b).compliance_score =
        c.compliance_score - COMPLIANCE_PENALTY) ∧
    (∀ (s n l : Nat) (r : Int), 0 < accurate_increment s n l r ∧
      accurate_increment s n l r < COMPLIANCE_PENALTY) := by
  refine ⟨?_, ?_, ?_, ?_, ?_,
    fun s n l r => ⟨(accurate_increment_bounds s n l r).1,
      (accurate_increment_bounds s n l r).2.2⟩⟩
  · constructor <;> simp [update_contributor]
  · intro hb
    subst hb
    constructor <;> simp [update_contributor]
  · intro hb hnow h0 hmax
    subst hb
    have hquot := accurate_increment_bounds (c.current_streak + 1) now
      c.last_active_timestamp
      (reliability_of (c.accurate_reports_count + 1) (c.total_reports_submitted + 1))
    rw [update_contributor_compliance, if_pos rfl,
      decayed_score_same_time c now hnow h0,
      clamp_score_of_between _ (by omega) (by omega)]
    omega
  · intro hb
    subst hb
    constructor <;> simp [update_contributor]
  · intro hb hnow hpen hmax
    subst hb
    have hPpos : (0 : Int) < COMPLIANCE_PENALTY := by norm_num [COMPLIANCE_PENALTY]
    have h0 : (0 : Int) ≤ c.compliance_score := by omega
    rw [update_contributor_compliance]
    simp only [Bool.false_eq_true, if_false]
    rw [decayed_score_same_time c now hnow h0,
      clamp_score_of_between _ (by omega) (by omega)]

/-- Witness for C4 at a freshly registered contributor: one accurate
report bumps the counters and raises the compliance score; one inaccurate
report costs exactly the fixed penalty. -/
theorem update_contributor_correct_witness :
    (update_contributor (mkContributor 1) 0 true).total_reports_submitted =
      (mkContributor 1).total_reports_submitted + 1 ∧
    (mkContributor 1).compliance_score <
      (update_contributor (mkContributor 1) 0 true).compliance_score ∧
    (update_contributor (mkContributor 1) 0 false).compliance_score =
      (mkContributor 1).compliance_score - COMPLIANCE_PENALTY :=
  ⟨(update_contributor_correct (mkContributor 1) 0 true).1.1,
   (update_contributor_correct (mkContributor 1) 0 true).2.2.1 rfl (by decide)
     (by decide) (by decide),
   (update_contributor_correct (mkContributor 1) 0 false).2.2.2.2.1 rfl (by decide)
     (by decide) (by decide)⟩

lemma clamp_score_range (x : Int) :
    0 ≤ clamp_score x ∧ clamp_score x ≤ MAX_COMPLIANCE_SCORE := by
  unfold clamp_score MAX_COMPLIANCE_SCORE
  constructor <;> omega

lemma reliability_of_range (a t : Nat) (h : a ≤ t) (ht : 0 < t) :
    0 ≤ reliability_of a t ∧ reliability_of a t ≤ MAX_COMPLIANCE_SCORE := by
  constructor
  · exact Int.natCast_nonneg _
  · unfold reliability_of MAX_COMPLIANCE_SCORE
    have hdiv : a * 100000000000 / t ≤ 100000000000 := by
      calc a * 100000000000 / t ≤ t * 100000000000 / t :=
            Nat.div_le_div_right (Nat.mul_le_mul_right _ h)
        _ = 100000000000 := Nat.mul_div_cancel_left _ ht
    exact_mod_cast hdiv

lemma update_preserves_invariant (c : Contributor) (now : Nat) (b : Bool)
    (h : c.accurate_reports_count ≤ c.total_reports_submitted) :
    score_in_range (update_contributor c now b) ∧
    (update_contributor c now b).accurate_reports_count ≤
      (update_contributor c now b).total_reports_submitted := by
  have hacc : (update_contributor c now b).accurate_reports_count =
      c.accurate_reports_count + (if b then 1 else 0) := by
    cases b <;> simp [update_contributor]
  have htot : (update_contributor c now b).total_reports_submitted =
      c.total_reports_submitted + 1 := by
    simp [update_contributor]
  have hrel : (update_contributor c now b).reliability_score =
      reliability_of (c.accurate_reports_count + (if b then 1 else 0))
        (c.total_reports_submitted + 1) := by
    cases b <;> simp [update_contributor]
  have hle : c.accurate_reports_count + (if b then 1 else 0) ≤
      c.total_reports_submitted + 1 := by
    cases b <;> simp <;> omega
  have hrr := reliability_of_range _ _ hle (Nat.succ_pos _)
  refine ⟨⟨?_, ?_, ?_, ?_⟩, ?_⟩
  · rw [update_contributor_compliance]
    cases b <;> simp only [if_true, if_false, Bool.false_eq_true] <;>
      exact (clamp_score_range _).1
  · rw [update_contributor_compliance]
    cases b <;> simp only [if_true, if_false, Bool.false_eq_true] <;>
      exact (clamp_score_range _).2
  · rw [hrel]; exact hrr.1
  · rw [hrel]; exact hrr.2
  · rw [hacc, htot]; exact hle

lemma apply_updates_preserve (us : List (Nat × Bool)) (c : Contributor)
    (h1 : score_in_range c)
    (h2 : c.accurate_reports_count ≤ c.total_reports_submitted) :
    score_in_range (apply_updates c us) := by
  induction us generalizing c with
  | nil => exact h1
  | cons u rest ih =>
    have hstep := update_preserves_invariant c u.1 u.2 h2
    simpa [apply_updates] using ih (update_contributor c u.1 u.2) hstep.1 hstep.2

/-- C8: starting from any contributor whose accurate count does not exceed
the total count, every nonempty sequence of accurate/inaccurate scoring
updates leaves `compliance_score` and `reliability_score` inside the valid
clamped range [0, max] of the fixed-point base — and since every prefix of
a sequence is itself a sequence, the scores are in range after every
single update. -/
theorem score_clamping (c : Contributor) (us : List (Nat × Bool))
    (h : c.accurate_reports_count ≤ c.total_reports_submitted)
    (hne : us ≠ []) :
    score_in_range (apply_updates c us) := by
  cases us with
  | nil => exact absurd rfl hne
  | cons u rest =>
    have hstep := update_preserves_invariant c u.1 u.2 h
    simpa [apply_updates] using
      apply_updates_preserve rest (update_contributor c u.1 u.2) hstep.1 hstep.2

/-- Witness for C8: two accurate reports and one inaccurate report on a
fresh contributor leave both scores inside the clamped range. -/
theorem score_clamping_witness :
    score_in_range (apply_updates (mkContributor 1) [(3, true), (9, true), (12, false)]) :=
  score_clamping (mkContributor 1) [(3, true), (9, true), (12, false)]
    (by decide) (by decide)

lemma StatusWeights.zero_total : StatusWeights.zero.total = 0 := rfl

lemma StatusWeights.total_add (w : StatusWeights) (s : TxidStatus) (wt : Int) :
    (w.add s wt).total = w.total + wt := by
  cases s <;> simp [StatusWeights.add, StatusWeights.total] <;> ring

lemma txid_status_weight_sum_aggregate (cds : List AggregatedConsensusData)
    (txid : String) (wt : Int) (s : TxidStatus) (h : String) (now : Nat) (t : String) :
    txid_status_weight_sum (aggregate_consensus_data cds txid wt s h now) t =
      txid_status_weight_sum cds t + (if t = txid then wt else 0) := by
  induction cds with
  | nil =>
    by_cases ht : t = txid
    · subst ht
      simp [aggregate_consensus_data, txid_status_weight_sum, List.find?,
        StatusWeights.total_add, StatusWeights.zero_total]
    · have hbe : (txid == t) = false := by
        simp [beq_iff_eq]
        exact fun he => ht he.symm
      simp [aggregate_consensus_data, txid_status_weight_sum, List.find?, hbe, ht]
  | cons d rest ih =>
    by_cases hd : d.txid = txid
    · have hd' : (d.txid == txid) = true := beq_iff_eq.mpr hd
      by_cases hdt : d.txid = t
      · have ht : t = txid := by rw [← hdt, hd]
        subst ht
        simp [aggregate_consensus_data, hd', txid_status_weight_sum, List.find?,
          beq_iff_eq.mpr hdt, StatusWeights.total_add]
      · have ht : ¬ t = txid := fun he => hdt (by rw [hd, he])
        have hdt' : (d.txid == t) = false := by simp [hdt]
        simp [aggregate_consensus_data, hd', txid_status_weight_sum, List.find?, hdt', ht]
    · have hd' : (d.txid == txid) = false := by simp [hd]
      by_cases hdt : d.txid = t
      · have ht : ¬ t = txid := fun he => hd (hdt.trans he)
        simp [aggregate_consensus_data, hd', txid_status_weight_sum, List.find?,
          beq_iff_eq.mpr hdt, ht]
      · have hdt' : (d.txid == t) = false := by simp [hdt]
        simpa [aggregate_consensus_data, hd', txid_status_weight_sum, List.find?, hdt']
          using ih

lemma apply_votes_sum (vs : List Vote) (cds : List AggregatedConsensusData) (t : String) :
    txid_status_weight_sum (apply_votes cds vs) t =
      txid_status_weight_sum cds t + votes_weight_sum vs t := by
  induction vs generalizing cds with
  | nil => simp [apply_votes, votes_weight_sum]
  | cons v rest ih =>
    have hstep := txid_status_weight_sum_aggregate cds v.txid v.weight v.status
      v.hash_value v.time t
    have hrec : txid_status_weight_sum (apply_votes
        (aggregate_consensus_data cds v.txid v.weight v.status v.hash_value v.time) rest) t =
        txid_status_weight_sum
          (aggregate_consensus_data cds v.txid v.weight v.status v.hash_value v.time) t +
          votes_weight_sum rest t := ih _
    have hv : votes_weight_sum (v :: rest) t =
        (if v.txid = t then v.weight else 0) + votes_weight_sum rest t := rfl
    simp only [apply_votes, List.foldl_cons] at hrec ⊢
    rw [hrec, hstep, hv]
    by_cases ht : t = v.txid
    · simp only [if_pos ht, if_pos ht.symm]
      omega
    · simp only [if_neg ht, if_neg (Ne.symm ht)]
      omega

lemma votes_weight_sum_nonneg (vs : List Vote) (t : String)
    (h : ∀ v ∈ vs, 0 ≤ v.weight) : 0 ≤ votes_weight_sum vs t := by
  induction vs with
  | nil => simp [votes_weight_sum]
  | cons v rest ih =>
    have hv := h v (List.mem_cons_self _ _)
    have hr := ih (fun x hx => h x (List.mem_cons_of_mem _ hx))
    have hv : votes_weight_sum (v :: rest) t =
        (if v.txid = t then v.weight else 0) + votes_weight_sum rest t := rfl
    rw [hv]
    by_cases hvt : v.txid = t <;> simp [hvt] <;> omega

/-- C3: for every vote sequence routed through the aggregator, the sum of
a txid's `status_weights` equals its initial sum plus the sum of the
weights of exactly the votes cast for that txid, each weight taken as it
was at the moment the vote was cast; with nonnegative vote weights the sum
is therefore monotonically non-decreasing until cleanup. -/
theorem aggregate_weight_conservation (vs : List Vote)
    (cds : List AggregatedConsensusData) (txid : String) :
    txid_status_weight_sum (apply_votes cds vs) txid =
      txid_status_weight_sum cds txid + votes_weight_sum vs txid ∧
    ((∀ v ∈ vs, 0 ≤ v.weight) →
      txid_status_weight_sum cds txid ≤ txid_status_weight_sum (apply_votes cds vs) txid) := by
  refine ⟨apply_votes_sum vs cds txid, fun h => ?_⟩
  have := votes_weight_sum_nonneg vs txid h
  rw [apply_votes_sum vs cds txid]
  omega

/-- Witness for C3: three concrete votes, two for txid "aa" with weights 5
and 2 and one for "bb", leave txid "aa" with status-weight sum 7, and the
sum never drops. -/
theorem aggregate_weight_conservation_witness :
    txid_status_weight_sum (apply_votes [] sampleVotes) "aa" =
      txid_status_weight_sum [] "aa" + votes_weight_sum sampleVotes "aa" ∧
    txid_status_weight_sum [] "aa" ≤
      txid_status_weight_sum (apply_votes [] sampleVotes) "aa" :=
  ⟨(aggregate_weight_conservation sampleVotes [] "aa").1,
   (aggregate_weight_conservation sampleVotes [] "aa").2 (by decide)⟩

/-- C9: after `post_consensus_tasks(txid)`, the store retains no temporary
report referencing that txid (resolved through the unchanged common-data
list of the resulting store) and no aggregated consensus entry for that
txid. -/
theorem post_consensus_cleanup (st : OracleState) (txid : String) (now : Nat) :
    ((post_consensus_tasks st txid now).temp_reports.filter
      (fun r => report_references_txid
        (post_consensus_tasks st txid now).common_reports r txid)) = [] ∧
    ((post_consensus_tasks st txid now).consensus_data.filter
      (fun d => d.txid == txid)) = [] := by
  have hc : (post_consensus_tasks st txid now).common_reports = st.common_reports := rfl
  rw [hc]
  constructor
  · refine List.filter_eq_nil_iff.mpr ?_
    intro r hr
    have hm := List.mem_filter.mp hr
    have h2 := hm.2
    simp only [Bool.and_eq_true, Bool.not_eq_eq_eq_not, Bool.not_true] at h2
    simp [h2.1.1]
  · refine List.filter_eq_nil_iff.mpr ?_
    intro d hd
    have hm := List.mem_filter.mp hd
    have h2 := hm.2
    simp only [Bool.and_eq_true, Bool.not_eq_eq_eq_not, Bool.not_true] at h2
    simp [h2.1]

/-- C10: the derived `is_eligible_for_rewards` flag written by every
scoring update holds exactly when the contributor has at least
`MIN_REPORTS_FOR_REWARD` (10) reports, reliability at least
`MIN_RELIABILITY_SCORE_FOR_REWARD` (80_000000000) and compliance at least
`MIN_COMPLIANCE_SCORE_FOR_REWARD` (65_000000000); and a reward request by
a registered contributor failing that predicate is rejected with
`NotEligibleForReward`. -/
theorem reward_eligibility_correct :
    (∀ (c : Contributor) (now : Nat) (b : Bool),
      ((update_contributor c now b).is_eligible_for_rewards = true ↔
        (MIN_REPORTS_FOR_REWARD ≤ (update_contributor c now b).total_reports_submitted ∧
         MIN_RELIABILITY_SCORE_FOR_REWARD ≤ (update_contributor c now b).reliability_score ∧
         MIN_COMPLIANCE_SCORE_FOR_REWARD ≤ (update_contributor c now b).compliance_score))) ∧
    (∀ (st : OracleState) (addr : Nat) (c : Contributor),
      find_contributor st.contributors addr = some c →
      ¬(MIN_REPORTS_FOR_REWARD ≤ c.total_reports_submitted ∧
        MIN_RELIABILITY_SCORE_FOR_REWARD ≤ c.reliability_score ∧
        MIN_COMPLIANCE_SCORE_FOR_REWARD ≤ c.compliance_score) →
      request_reward_helper st addr = .error .NotEligibleForReward) := by
  constructor
  · intro c now b
    have h1 : (update_contributor c now b).is_eligible_for_rewards =
        compute_is_eligible_for_rewards
          ((update_contributor c now b).total_reports_submitted)
          ((update_contributor c now b).reliability_score)
          ((update_contributor c now b).compliance_score) := by
      cases b <;> simp [update_contributor]
    rw [h1]
    simp only [compute_is_eligible_for_rewards, Bool.and_eq_true, decide_eq_true_eq]
    tauto
  · intro st addr c hf hnel
    unfold request_reward_helper
    rw [hf]
    have hfalse : compute_is_eligible_for_rewards c.total_reports_submitted
        c.reliability_score c.compliance_score = false := by
      rw [Bool.eq_false_iff]
      intro hcontra
      apply hnel
      have := hcontra
      simp only [compute_is_eligible_for_rewards, Bool.and_eq_true,
        decide_eq_true_eq] at this
      tauto
    simp [hfalse]

/-- Witness for C10: a contributor's very first accurate report leaves the
flag false (1 < 10 reports), and the fresh contributor at address 1 of the
validation store, with 0 reports, is rejected with
`NotEligibleForReward`. -/
theorem reward_eligibility_correct_witness :
    ((update_contributor (mkContributor 1) 0 true).is_eligible_for_rewards = true ↔
      (MIN_REPORTS_FOR_REWARD ≤
        (update_contributor (mkContributor 1) 0 true).total_reports_submitted ∧
       MIN_RELIABILITY_SCORE_FOR_REWARD ≤
        (update_contributor (mkContributor 1) 0 true).reliability_score ∧
       MIN_COMPLIANCE_SCORE_FOR_REWARD ≤
        (update_contributor (mkContributor 1) 0 true).compliance_score)) ∧
    request_reward_helper validationState 1 = .error .NotEligibleForReward :=
  ⟨reward_eligibility_correct.1 (mkContributor 1) 0 true,
   reward_eligibility_correct.2 validationState 1 (mkContributor 1) (by decide)
     (by decide)⟩

end PastelOracle
